import Mathlib

/-!
Shallow embedding of the two Stripe webhook receivers of this repository:

* `src/app/api/webhooks/stripe-credits/route.ts` (namespace `Credits`)
* `src/app/api/stripe-webhook/route.ts`          (namespace `Mkt`)

The external relational store is modelled as lists of rows per table; each
supabase call (`insert`, `update ... eq`, `upsert ... onConflict`, single-row
`select`) becomes a pure transformation of that state.  Wall-clock columns
(`updated_at`, `scheduled_at`) are omitted: no claim is about them.  JavaScript
truthiness checks on strings (`if (!x)`) are modelled by `jsFalsy`, which
treats both an absent value and the empty string as falsy, exactly as the
source does.
-/

/-- Truthiness of an optional string as JavaScript sees it: `undefined`/`null`
and the empty string are falsy. -/
def jsFalsy : Option String → Bool
  | none => true
  | some s => decide (s = "")

/-- Shape of a `payment_intent` field in Stripe payloads: either a string id,
an expanded object (of which only the id matters here), or null/undefined. -/
inductive PIRef
  | str (s : String)
  | obj (id : String)
  | null
deriving DecidableEq

/-- Leading-digit accumulation used by `parseIntJS`. -/
def parseDigits (cs : List Char) : Option Nat :=
  let ds := cs.takeWhile Char.isDigit
  if ds.isEmpty then none
  else some (ds.foldl (fun a c => a * 10 + (c.toNat - 48)) 0)

/-- Model of JavaScript `parseInt(s, 10)`: skip leading whitespace, optional
sign, then the longest digit prefix; `none` stands for `NaN`. -/
def parseIntJS (s : String) : Option Int :=
  let cs := s.toList.dropWhile (fun c => c = ' ' ∨ c = '\t' ∨ c = '\n' ∨ c = '\r')
  match cs with
  | '-' :: rest => (parseDigits rest).map (fun n => -(n : Int))
  | '+' :: rest => (parseDigits rest).map (fun n => (n : Int))
  | _ => (parseDigits cs).map (fun n => (n : Int))

/-- HTTP response model: a plain-text error with a status code, or the JSON
acknowledgment `{ received: true }`. -/
inductive Response
  | errText (status : Nat) (body : String)
  | ack
deriving DecidableEq

/-- Shared signature-verification phase of both `POST` handlers: try the
primary secret when configured, fall back to the connected-account secret,
return 500 when neither is configured and 400 when every configured secret
fails.  `verify s` models `stripe.webhooks.constructEvent(raw, sig, s)`
(`none` = it threw). -/
def verifyWithSecrets {E : Type} (noSecretMsg : String) (verify : String → Option E)
    (primary connect : Option String) : Except (Nat × String) E :=
  if jsFalsy primary && jsFalsy connect then Except.error (500, noSecretMsg)
  else
    match (if jsFalsy primary then none else verify (primary.getD "")) with
    | some ev => Except.ok ev
    | none =>
      if jsFalsy connect then Except.error (400, "bad sig")
      else
        match verify (connect.getD "") with
        | some ev => Except.ok ev
        | none => Except.error (400, "bad sig")

namespace Credits

/-- Row of `credits_ledger`. -/
structure LedgerEntry where
  user_id : String
  payment_intent : String
  amount_cents : Int
  credits : Int
  reason : String
deriving DecidableEq

/-- Row of `mkt_profiles`, restricted to the columns this route touches. -/
structure Profile where
  id : String
  credits : Int
deriving DecidableEq

/-- Store state seen by the credits route. -/
structure Db where
  credits_ledger : List LedgerEntry
  mkt_profiles : List Profile
deriving DecidableEq

/-- Stripe checkout session as `grantCredits` reads it: id, payment-intent
reference, `amount_total`, and the metadata keys `kind`, `userId`, `credits`. -/
structure Session where
  id : String
  payment_intent : PIRef
  amount_total : Option Int
  md_kind : Option String
  md_userId : Option String
  md_credits : Option String
deriving DecidableEq

/-- Payment reference resolution in `grantCredits`:
`typeof pi === "string" ? pi : pi?.id || session.id` (note `||`, so an
expanded object with empty id also falls back to the session id). -/
def creditsPiId (r : PIRef) (sid : String) : String :=
  match r with
  | .str s => s
  | .obj i => if i = "" then sid else i
  | .null => sid

/-- The source's credit-count guard `!credits || credits <= 0`
(`none` models `NaN`). -/
def creditsBad : Option Int → Bool
  | none => true
  | some n => decide (n ≤ 0)

/-- `credits_ledger` insert under the unique index on `payment_intent`:
a duplicate payment reference fails with Postgres error code 23505. -/
def Db.insertLedger (db : Db) (e : LedgerEntry) : Except String Db :=
  if db.credits_ledger.any (fun r => decide (r.payment_intent = e.payment_intent)) then
    Except.error "23505"
  else
    Except.ok { db with credits_ledger := db.credits_ledger ++ [e] }

/-- `select("credits").eq("id", userId).single()`: a missing row surfaces as
PostgREST error code PGRST116. -/
def Db.readCredits (db : Db) (uid : String) : Except String (Option Int) :=
  match db.mkt_profiles.find? (fun p => decide (p.id = uid)) with
  | some p => Except.ok (some p.credits)
  | none => Except.error "PGRST116"

/-- `upsert({ id, credits }, { onConflict: "id" })`: update the credits column
of the existing row, or insert a fresh row. -/
def Db.upsertCredits (db : Db) (uid : String) (n : Int) : Db :=
  if db.mkt_profiles.any (fun p => decide (p.id = uid)) then
    let updated := db.mkt_profiles.map (fun p => if p.id = uid then { p with credits := n } else p)
    { db with mkt_profiles := updated }
  else
    { db with mkt_profiles := db.mkt_profiles ++ [{ id := uid, credits := n }] }

/-- The balance phase of `grantCredits` (source lines 50-73), as a function of
the outcome of the profile read: a read error other than PGRST116 aborts,
PGRST116 (no row) is treated as a current balance of 0, and the new balance
`current + credits` is upserted. -/
def balanceStep (db : Db) (uid : String) (credits : Int)
    (readRes : Except String (Option Int)) : Db :=
  match readRes with
  | .error code =>
    if code = "PGRST116" then db.upsertCredits uid (0 + credits)
    else db
  | .ok prof => db.upsertCredits uid (prof.getD 0 + credits)

/-- Continuation of `grantCredits` after the ledger insert (source lines
43-73): an insert error whose code is not 23505 aborts; success or a 23505
uniqueness conflict both proceed to the balance phase on the resulting store. -/
def afterLedgerInsert (db : Db) (u : String) (c : Int) (res : Except String Db) : Db :=
  match res with
  | .ok db1 => balanceStep db1 u c (db1.readCredits u)
  | .error code =>
    if code = "23505" then balanceStep db u c (db.readCredits u)
    else db

/-- `grantCredits(session)`: no-op unless the session's metadata tags it as a
credits purchase and carries a truthy user id, a positive parsed credit count
and a truthy payment reference; then the ledger insert followed by its
continuation. -/
def grantCredits (s : Session) (db : Db) : Db :=
  if s.md_kind ≠ some "credits_purchase" then db
  else
    let userId := s.md_userId
    let credits := parseIntJS (s.md_credits.getD "0")
    let amount_cents := s.amount_total.getD 0
    let piId := creditsPiId s.payment_intent s.id
    if jsFalsy userId then db
    else if creditsBad credits then db
    else if piId = "" then db
    else
      let u := userId.getD ""
      let c := credits.getD 0
      let entry : LedgerEntry :=
        { user_id := u, payment_intent := piId, amount_cents := amount_cents,
          credits := c, reason := "purchase" }
      afterLedgerInsert db u c (db.insertLedger entry)

/-- Event payload of the credits route. -/
inductive EventObj
  | session (s : Session)
  | other
deriving DecidableEq

/-- Verified Stripe event as the credits route sees it. -/
structure Event where
  type : String
  obj : EventObj
deriving DecidableEq

/-- Post-verification dispatch of the credits route: only
`checkout.session.completed` triggers `grantCredits`. -/
def dispatchEvent (ev : Event) (db : Db) : Db :=
  if ev.type = "checkout.session.completed" then
    match ev.obj with
    | .session s => grantCredits s db
    | .other => db
  else db

/-- The credits route's `POST`: verify against the two dedicated secrets
(500 `no secret` when neither is configured, 400 `bad sig` when all configured
secrets fail), then acknowledge and run the (detached) handler. -/
def POST (verify : String → Option Event) (primary connect : Option String)
    (db : Db) : Response × Db :=
  match verifyWithSecrets "no secret" verify primary connect with
  | .error (s, b) => (Response.errText s b, db)
  | .ok ev => (Response.ack, dispatchEvent ev db)

end Credits

namespace Mkt

/-- Row of `mkt_listings`. -/
structure Listing where
  id : String
  source_type : String
  source_id : String
  buyer_id : Option String
  status : String
  is_active : Bool
deriving DecidableEq

/-- Row of `user_assets`. -/
structure Asset where
  id : String
  owner_id : String
  source_type : String
  source_id : String
deriving DecidableEq

/-- Row of `mkt_transactions` (`stripe_payment_id` may be unset when the row
was created before a payment id was known). -/
structure Txn where
  stripe_payment_id : Option String
  listing_id : String
  buyer_id : String
  status : String
deriving DecidableEq

/-- Row of `mkt_profiles`, restricted to the columns this route touches. -/
structure Profile where
  id : String
  email : Option String
  stripe_account_id : Option String
  stripe_verified : Bool
  is_seller : Bool
deriving DecidableEq

/-- Row of `mkt_payouts` (the wall-clock `scheduled_at` column is omitted). -/
structure Payout where
  listing_id : String
  stripe_account_id : String
  amount_cents : Int
  status : String
deriving DecidableEq

/-- Store state seen by the marketplace route. -/
structure Db where
  mkt_listings : List Listing
  user_assets : List Asset
  mkt_transactions : List Txn
  mkt_profiles : List Profile
  mkt_payouts : List Payout
deriving DecidableEq

/-- Stripe payment intent as the handlers read it: id, status, amounts, and
the metadata keys `mkt_listing_id`, `mkt_buyer_id`, `mkt_seller_id`. -/
structure PaymentIntent where
  id : String
  status : String
  amount : Int
  amount_received : Option Int
  application_fee_amount : Option Int
  md_listing_id : Option String
  md_buyer_id : Option String
  md_seller_id : Option String
deriving DecidableEq

/-- Stripe charge as `handleChargeRefunded` reads it (metadata is carried but
never consulted by that handler). -/
structure Charge where
  payment_intent : PIRef
  md_listing_id : Option String
  md_buyer_id : Option String
deriving DecidableEq

/-- Stripe checkout session as the `checkout.session.async_payment_failed`
branch reads it. -/
structure SessionObj where
  id : String
  payment_intent : PIRef
  md_listing_id : Option String
  md_buyer_id : Option String
deriving DecidableEq

/-- Stripe account as `markSellerReadiness` reads it:
`requirements?.currently_due` collapsed to an optional list, plus the
metadata key `user_id`. -/
structure Account where
  id : String
  charges_enabled : Bool
  payouts_enabled : Bool
  currently_due : Option (List String)
  md_user_id : Option String
deriving DecidableEq

/-- The readiness formula of `markSellerReadiness`:
`charges_enabled === true && payouts_enabled === true &&
 ((requirements?.currently_due ?? []).length === 0)`. -/
def accountVerified (acct : Account) : Bool :=
  acct.charges_enabled && acct.payouts_enabled && (acct.currently_due.getD []).isEmpty

/-- First write of `markSellerReadiness`: when the account metadata carries a
truthy user id, upsert (`onConflict: "id"`) the profile row keyed by that user
id, setting the account id and both readiness flags (the upsert payload also
nulls `email`). -/
def sellerUpsert (acct : Account) (verified : Bool) (db : Db) : Db :=
  match acct.md_user_id with
  | some uid =>
    if uid = "" then db
    else if db.mkt_profiles.any (fun p => decide (p.id = uid)) then
      let updated := db.mkt_profiles.map (fun p =>
        if p.id = uid then
          { p with
            email := none,
            stripe_account_id := some acct.id,
            stripe_verified := verified,
            is_seller := verified }
        else p)
      { db with mkt_profiles := updated }
    else
      let newRow : Profile :=
        { id := uid, email := none, stripe_account_id := some acct.id,
          stripe_verified := verified, is_seller := verified }
      { db with mkt_profiles := db.mkt_profiles ++ [newRow] }
  | none => db

/-- Second write of `markSellerReadiness`: set both readiness flags on every
profile row matched by the Stripe account id. -/
def sellerUpdateByAccount (acct : Account) (verified : Bool) (db : Db) : Db :=
  let updated := db.mkt_profiles.map (fun p =>
    if p.stripe_account_id = some acct.id then
      { p with stripe_verified := verified, is_seller := verified }
    else p)
  { db with mkt_profiles := updated }

/-- `markSellerReadiness(acct)`: compute the readiness value, then perform the
metadata-keyed upsert followed by the account-id-matched flag update, both
writing that same value. -/
def markSellerReadiness (acct : Account) (db : Db) : Db :=
  sellerUpdateByAccount acct (accountVerified acct)
    (sellerUpsert acct (accountVerified acct) db)

/-- `transferAssetToBuyer(listingId, buyerId)`: look the listing up; for
`source_type = "asset"` update the asset row keyed by the listing's
`source_id`, otherwise the legacy row matched by
`(source_type = "uploaded_image", source_id)`. -/
def transferAssetToBuyer (db : Db) (listingId buyerId : String) : Db :=
  match db.mkt_listings.find? (fun l => decide (l.id = listingId)) with
  | none => db
  | some listing =>
    if listing.source_type = "asset" then
      let updated := db.user_assets.map (fun a =>
        if a.id = listing.source_id then { a with owner_id := buyerId } else a)
      { db with user_assets := updated }
    else
      let updated := db.user_assets.map (fun a =>
        if a.source_type = "uploaded_image" ∧ a.source_id = listing.source_id then
          { a with owner_id := buyerId }
        else a)
      { db with user_assets := updated }

/-- The net-amount formula of `handlePaymentIntentSucceeded`:
`Math.max(0, amountCents - platformFeeCents)`. -/
def netCents (amountCents platformFeeCents : Int) : Int :=
  max 0 (amountCents - platformFeeCents)

/-- `queuePayoutIfPossible(listingId, sellerId, netCents)`: no-op on a falsy
seller id or non-positive net amount; otherwise look up the seller's Stripe
account id (read error or falsy id → no-op) and insert a pending payout row. -/
def queuePayoutIfPossible (db : Db) (listingId : String) (sellerId : Option String)
    (net : Int) : Db :=
  if jsFalsy sellerId then db
  else if net ≤ 0 then db
  else
    match db.mkt_profiles.find? (fun p => decide (p.id = sellerId.getD "")) with
    | none => db
    | some seller =>
      match seller.stripe_account_id with
      | none => db
      | some acctId =>
        if acctId = "" then db
        else
          let row : Payout :=
            { listing_id := listingId, stripe_account_id := acctId,
              amount_cents := net, status := "pending" }
          { db with mkt_payouts := db.mkt_payouts ++ [row] }

/-- `markTxFailed(stripeId, listingId?, buyerId?)`: mark every transaction
matched by the payment id failed; then, when the listing id is truthy, reset
the listing to active/unowned, but only where its current `buyer_id` equals
`buyerId ?? null`. -/
def markTxFailed (db : Db) (stripeId : String) (listingId buyerId : Option String) : Db :=
  let txns := db.mkt_transactions.map (fun t =>
    if t.stripe_payment_id = some stripeId then { t with status := "failed" } else t)
  let db1 := { db with mkt_transactions := txns }
  if jsFalsy listingId then db1
  else
    let lid := listingId.getD ""
    let listings := db1.mkt_listings.map (fun l =>
      if l.id = lid ∧ l.buyer_id = buyerId then
        { l with buyer_id := none, status := "active", is_active := true }
      else l)
    { db1 with mkt_listings := listings }

/-- Transaction-completion step of `handlePaymentIntentSucceeded` (source
lines 163-183): update rows matched by the payment id (returning the matches);
when none matched, fall back to rows matched by
`(listing_id, buyer_id, status = "pending")`, also backfilling the payment id. -/
def completeTx (db : Db) (stripeId listingId buyerId : String) : Db :=
  let matched := db.mkt_transactions.filter (fun t =>
    decide (t.stripe_payment_id = some stripeId))
  let txns1 := db.mkt_transactions.map (fun t =>
    if t.stripe_payment_id = some stripeId then { t with status := "completed" } else t)
  let db1 := { db with mkt_transactions := txns1 }
  if matched.length = 0 then
    let txns2 := db1.mkt_transactions.map (fun t =>
      if t.listing_id = listingId ∧ t.buyer_id = buyerId ∧ t.status = "pending" then
        { t with status := "completed", stripe_payment_id := some stripeId }
      else t)
    { db1 with mkt_transactions := txns2 }
  else db1

/-- Listing step of `handlePaymentIntentSucceeded`: set the listing sold. -/
def markListingSold (db : Db) (listingId buyerId : String) : Db :=
  let listings := db.mkt_listings.map (fun l =>
    if l.id = listingId then
      { l with buyer_id := some buyerId, status := "sold", is_active := false }
    else l)
  { db with mkt_listings := listings }

/-- `handlePaymentIntentSucceeded(pi)`: re-fetch the payment intent by id from
the provider (`fetch`), abort unless the fresh status is `"succeeded"` and the
fresh metadata carries truthy listing and buyer ids; then complete the
transaction, mark the listing sold, transfer the asset, and queue the payout
sized `max(0, amount_received - application_fee_amount)`. -/
def handlePaymentIntentSucceeded (fetch : String → PaymentIntent)
    (pi : PaymentIntent) (db : Db) : Db :=
  let fresh := fetch pi.id
  if fresh.status ≠ "succeeded" then db
  else if jsFalsy fresh.md_listing_id || jsFalsy fresh.md_buyer_id then db
  else
    let listingId := fresh.md_listing_id.getD ""
    let buyerId := fresh.md_buyer_id.getD ""
    let stripeId := fresh.id
    let amountCents := fresh.amount_received.getD fresh.amount
    let platformFeeCents := fresh.application_fee_amount.getD 0
    let net := netCents amountCents platformFeeCents
    let db1 := completeTx db stripeId listingId buyerId
    let db2 := markListingSold db1 listingId buyerId
    let db3 := transferAssetToBuyer db2 listingId buyerId
    queuePayoutIfPossible db3 listingId fresh.md_seller_id net

/-- `handlePaymentIntentFailed(pi)`: mark failed using the event payload's
payment intent and its metadata. -/
def handlePaymentIntentFailed (pi : PaymentIntent) (db : Db) : Db :=
  markTxFailed db pi.id pi.md_listing_id pi.md_buyer_id

/-- Payment-id resolution in `handleChargeRefunded`:
`(typeof pi === "string" ? pi : pi?.id) ?? ""`. -/
def chargePiId (r : PIRef) : String :=
  match r with
  | .str s => s
  | .obj i => i
  | .null => ""

/-- `handleChargeRefunded(ch)`: mark the transaction failed by the resolved
payment id, passing no listing id and no buyer id. -/
def handleChargeRefunded (ch : Charge) (db : Db) : Db :=
  markTxFailed db (chargePiId ch.payment_intent) none none

/-- Payment-id resolution in the `checkout.session.async_payment_failed`
branch: `typeof pi === "string" ? pi : pi?.id ?? s.id`. -/
def sessionPiId (r : PIRef) (sessionId : String) : String :=
  match r with
  | .str s => s
  | .obj i => i
  | .null => sessionId

/-- Event payload of the marketplace route. -/
inductive EventObj
  | paymentIntent (pi : PaymentIntent)
  | checkoutSession (s : SessionObj)
  | charge (ch : Charge)
  | account (a : Account)
  | other
deriving DecidableEq

/-- Verified Stripe event as the marketplace route sees it. -/
structure Event where
  type : String
  obj : EventObj
deriving DecidableEq

/-- Post-verification dispatch switch of the marketplace route's `POST`. -/
def dispatch (fetch : String → PaymentIntent) (ev : Event) (db : Db) : Db :=
  if ev.type = "payment_intent.succeeded" then
    match ev.obj with
    | .paymentIntent pi => handlePaymentIntentSucceeded fetch pi db
    | _ => db
  else if ev.type = "payment_intent.payment_failed" ∨ ev.type = "payment_intent.canceled" then
    match ev.obj with
    | .paymentIntent pi => handlePaymentIntentFailed pi db
    | _ => db
  else if ev.type = "checkout.session.async_payment_failed" then
    match ev.obj with
    | .checkoutSession s =>
      markTxFailed db (sessionPiId s.payment_intent s.id) s.md_listing_id s.md_buyer_id
    | _ => db
  else if ev.type = "charge.refunded" then
    match ev.obj with
    | .charge ch => handleChargeRefunded ch db
    | _ => db
  else if ev.type = "account.updated" ∨ ev.type = "capability.updated" ∨
      ev.type = "account.application.authorized" then
    match ev.obj with
    | .account a => markSellerReadiness a db
    | _ => db
  else db

/-- The marketplace route's `POST`: verify against the two secrets
(500 `webhook secret missing` when neither is configured, 400 `bad sig` when
all configured secrets fail), then dispatch and acknowledge. -/
def POST (verify : String → Option Event) (primary connect : Option String)
    (fetch : String → PaymentIntent) (db : Db) : Response × Db :=
  match verifyWithSecrets "webhook secret missing" verify primary connect with
  | .error (s, b) => (Response.errText s b, db)
  | .ok ev => (Response.ack, dispatch fetch ev db)

end Mkt

namespace Credits

/-- Concrete credits-purchase checkout session (user u1, 50 credits, payment
reference pi_1) used in concrete evaluations. -/
def sessionOne : Session :=
  { id := "cs_1", payment_intent := PIRef.str "pi_1", amount_total := some 500,
    md_kind := some "credits_purchase", md_userId := some "u1", md_credits := some "50" }

/-- Credits-route store with no rows. -/
def dbEmpty : Db := { credits_ledger := [], mkt_profiles := [] }

end Credits

namespace Mkt

/-- Concrete succeeded payment intent for listing L1, buyer U2, seller U3. -/
def piSample : PaymentIntent :=
  { id := "pi_9", status := "succeeded", amount := 1000, amount_received := some 1000,
    application_fee_amount := some 100, md_listing_id := some "L1",
    md_buyer_id := some "U2", md_seller_id := some "U3" }

/-- Provider state whose re-fetch of any payment yields a still-processing
status. -/
def fetchProcessing : String → PaymentIntent :=
  fun i =>
    { id := i, status := "processing", amount := 1000, amount_received := none,
      application_fee_amount := none, md_listing_id := some "L1",
      md_buyer_id := some "U2", md_seller_id := some "U3" }

/-- Listing L1 currently reserved by buyer C. -/
def listingOfC : Listing :=
  { id := "L1", source_type := "asset", source_id := "A1",
    buyer_id := some "C", status := "sold", is_active := false }

/-- Pending transaction of buyer B on listing L1 carrying payment id pi_1. -/
def txnOfB : Txn :=
  { stripe_payment_id := some "pi_1", listing_id := "L1",
    buyer_id := "B", status := "pending" }

/-- Pending transaction of buyer B on listing L1 with no payment id yet. -/
def txnNoPi : Txn :=
  { stripe_payment_id := none, listing_id := "L1",
    buyer_id := "B", status := "pending" }

/-- Store whose only listing is already reserved by buyer C while buyer B's
transaction is still pending. -/
def dbGuard : Db :=
  { mkt_listings := [listingOfC],
    user_assets := [],
    mkt_transactions := [txnOfB],
    mkt_profiles := [],
    mkt_payouts := [] }

/-- Store with a single pending transaction that carries no payment id. -/
def dbPending : Db :=
  { mkt_listings := [],
    user_assets := [],
    mkt_transactions := [txnNoPi],
    mkt_profiles := [],
    mkt_payouts := [] }

/-- Marketplace store with no rows at all. -/
def dbNone : Db :=
  { mkt_listings := [],
    user_assets := [],
    mkt_transactions := [],
    mkt_profiles := [],
    mkt_payouts := [] }

/-- Concrete fully-enabled Stripe account tagged with user u7. -/
def acctSample : Account :=
  { id := "acct_9", charges_enabled := true, payouts_enabled := true,
    currently_due := some [], md_user_id := some "u7" }

/-- Profile row as `markSellerReadiness` creates it for `acctSample`. -/
def profU7 : Profile :=
  { id := "u7", email := none, stripe_account_id := some "acct_9",
    stripe_verified := true, is_seller := true }

/-- Event of a type the marketplace route does not dispatch on. -/
def evUnknown : Event := { type := "invoice.paid", obj := EventObj.other }

end Mkt

/-- Event of a type the credits route does not dispatch on. -/
def evUnknownC : Credits.Event := { type := "invoice.paid", obj := Credits.EventObj.other }

/-- Neither secret configured: the shared verification phase returns 500. -/
theorem verifyWithSecrets_no_secret {E : Type} (msg : String) (verify : String → Option E)
    (primary connect : Option String)
    (hp : jsFalsy primary = true) (hc : jsFalsy connect = true) :
    verifyWithSecrets msg verify primary connect = Except.error (500, msg) := by
  simp [verifyWithSecrets, hp, hc]

/-- Every configured secret fails: the shared verification phase returns 400. -/
theorem verifyWithSecrets_all_fail {E : Type} (msg : String) (verify : String → Option E)
    (primary connect : Option String)
    (hp : jsFalsy primary = false → verify (primary.getD "") = none)
    (hc : jsFalsy connect = false → verify (connect.getD "") = none)
    (hcfg : jsFalsy primary = false ∨ jsFalsy connect = false) :
    verifyWithSecrets msg verify primary connect = Except.error (400, "bad sig") := by
  cases hpb : jsFalsy primary with
  | true =>
    cases hcb : jsFalsy connect with
    | true =>
      rcases hcfg with h | h
      · rw [hpb] at h; cases h
      · rw [hcb] at h; cases h
    | false => simp [verifyWithSecrets, hpb, hcb, hc hcb]
  | false =>
    cases hcb : jsFalsy connect with
    | true => simp [verifyWithSecrets, hpb, hcb, hp hpb]
    | false => simp [verifyWithSecrets, hpb, hcb, hp hpb, hc hcb]

/-- The primary secret is configured and verifies: its event is used. -/
theorem verifyWithSecrets_primary_ok {E : Type} (msg : String) (verify : String → Option E)
    (primary connect : Option String) (ev : E)
    (hpb : jsFalsy primary = false) (hok : verify (primary.getD "") = some ev) :
    verifyWithSecrets msg verify primary connect = Except.ok ev := by
  simp [verifyWithSecrets, hpb, hok]

/-- The primary secret is absent or fails and the connected-account secret
verifies: its event is used. -/
theorem verifyWithSecrets_secondary_ok {E : Type} (msg : String) (verify : String → Option E)
    (primary connect : Option String) (ev : E)
    (hp : jsFalsy primary = true ∨ verify (primary.getD "") = none)
    (hcb : jsFalsy connect = false) (hok : verify (connect.getD "") = some ev) :
    verifyWithSecrets msg verify primary connect = Except.ok ev := by
  rcases hp with hp | hp
  · simp [verifyWithSecrets, hp, hcb, hok]
  · cases hpb : jsFalsy primary <;> simp [verifyWithSecrets, hpb, hp, hcb, hok]

/-- C1 counterexample: running the credit grant handler twice with the same
payment reference (a 50-credit purchase for user u1 over an empty store)
leaves exactly one ledger row, but the second run does not stop at the
uniqueness conflict: the stored balance ends at 100 credits, not at the 50 the
claim requires. -/
theorem C1_duplicate_grant_counterexample :
    (Credits.grantCredits Credits.sessionOne
      (Credits.grantCredits Credits.sessionOne Credits.dbEmpty)).credits_ledger.length = 1 ∧
    (Credits.grantCredits Credits.sessionOne Credits.dbEmpty).mkt_profiles =
      [{ id := "u1", credits := 50 }] ∧
    (Credits.grantCredits Credits.sessionOne
      (Credits.grantCredits Credits.sessionOne Credits.dbEmpty)).mkt_profiles =
      [{ id := "u1", credits := 100 }] ∧
    (Credits.grantCredits Credits.sessionOne
      (Credits.grantCredits Credits.sessionOne Credits.dbEmpty)).mkt_profiles ≠
      [{ id := "u1", credits := 50 }] := by
  decide

/-- C1 (amended): a replayed valid credits purchase whose payment reference is
already in the ledger adds no ledger row, but the handler treats the 23505
uniqueness conflict as non-fatal and proceeds to the balance phase, so the
user's stored balance is incremented by the credit count again; only an insert
error with a code other than 23505 aborts before crediting. -/
theorem C1_replay_increments_again (s : Credits.Session) (db : Credits.Db)
    (u : String) (c : Int) (prof : Credits.Profile)
    (hkind : s.md_kind = some "credits_purchase")
    (huser : s.md_userId = some u) (hu : u ≠ "")
    (hc : parseIntJS (s.md_credits.getD "0") = some c) (hcpos : 0 < c)
    (hpi : Credits.creditsPiId s.payment_intent s.id ≠ "")
    (hdup : db.credits_ledger.any (fun r =>
      decide (r.payment_intent = Credits.creditsPiId s.payment_intent s.id)) = true)
    (hfind : db.mkt_profiles.find? (fun p => decide (p.id = u)) = some prof) :
    (Credits.grantCredits s db).credits_ledger = db.credits_ledger ∧
    (Credits.grantCredits s db).mkt_profiles =
      db.mkt_profiles.map (fun p =>
        if p.id = u then { p with credits := prof.credits + c } else p) ∧
    (∀ code : String, code ≠ "23505" →
      Credits.afterLedgerInsert db u c (Except.error code) = db) := by
  have hbad : Credits.creditsBad (some c) = false := by
    simp [Credits.creditsBad]
    omega
  have hfalsy : jsFalsy (some u) = false := by simp [jsFalsy, hu]
  have hmem : prof ∈ db.mkt_profiles := List.mem_of_find?_eq_some hfind
  have hpid : prof.id = u := by simpa using List.find?_some hfind
  have hany : db.mkt_profiles.any (fun p => decide (p.id = u)) = true :=
    List.any_eq_true.mpr ⟨prof, hmem, by simpa using hpid⟩
  have hrun : Credits.grantCredits s db =
      Credits.Db.upsertCredits db u (prof.credits + c) := by
    simp [Credits.grantCredits, Credits.afterLedgerInsert, hkind, huser, hc,
      hfalsy, hbad, hpi, Credits.Db.insertLedger, hdup, Credits.balanceStep,
      Credits.Db.readCredits, hfind]
  refine ⟨?_, ?_, ?_⟩
  · rw [hrun]
    simp [Credits.Db.upsertCredits, hany]
  · rw [hrun]
    simp [Credits.Db.upsertCredits, hany]
  · intro code hcode
    simp [Credits.afterLedgerInsert, hcode]

/-- C1 witness: replaying the 50-credit purchase over the store produced by
the first delivery maps u1's balance from 50 to 100. -/
theorem C1_replay_increments_again_witness :
    (Credits.grantCredits Credits.sessionOne
        (Credits.grantCredits Credits.sessionOne Credits.dbEmpty)).mkt_profiles =
      (Credits.grantCredits Credits.sessionOne Credits.dbEmpty).mkt_profiles.map
        (fun p => if p.id = "u1" then { p with credits := 100 } else p) :=
  (C1_replay_increments_again Credits.sessionOne
    (Credits.grantCredits Credits.sessionOne Credits.dbEmpty) "u1" 50
    { id := "u1", credits := 50 } rfl rfl (by decide) (by decide) (by decide)
    (by decide) (by decide) (by decide)).2.1

/-- C3: the settlement handler acts on the re-fetched payment intent; when the
re-fetched status is not `succeeded`, or the re-fetched metadata lacks a truthy
listing id or buyer id, no store mutation at all happens. -/
theorem C3_settlement_refetch_guard (fetch : String → Mkt.PaymentIntent)
    (pi : Mkt.PaymentIntent) (db : Mkt.Db)
    (h : (fetch pi.id).status ≠ "succeeded" ∨
         jsFalsy (fetch pi.id).md_listing_id = true ∨
         jsFalsy (fetch pi.id).md_buyer_id = true) :
    Mkt.handlePaymentIntentSucceeded fetch pi db = db := by
  by_cases hs : (fetch pi.id).status = "succeeded"
  · rcases h with h | h | h
    · exact absurd hs h
    · simp [Mkt.handlePaymentIntentSucceeded, hs, h]
    · simp [Mkt.handlePaymentIntentSucceeded, hs, h]
  · simp [Mkt.handlePaymentIntentSucceeded, hs]

/-- C3 witness: a payment whose re-fetched status is `processing` leaves the
store untouched. -/
theorem C3_settlement_refetch_guard_witness :
    Mkt.handlePaymentIntentSucceeded Mkt.fetchProcessing Mkt.piSample Mkt.dbGuard =
      Mkt.dbGuard :=
  C3_settlement_refetch_guard Mkt.fetchProcessing Mkt.piSample Mkt.dbGuard
    (Or.inl (by decide))

/-- C4: the computed payout amount is exactly `max 0 (amount - fee)`, hence
never negative, and a non-positive net amount or a falsy seller id queues no
payout row. -/
theorem C4_net_payout (a f : Int) (db : Mkt.Db) (lid : String)
    (sid : Option String) (n : Int) :
    Mkt.netCents a f = max 0 (a - f) ∧
    0 ≤ Mkt.netCents a f ∧
    (n ≤ 0 → Mkt.queuePayoutIfPossible db lid sid n = db) ∧
    (jsFalsy sid = true → Mkt.queuePayoutIfPossible db lid sid n = db) := by
  refine ⟨rfl, le_max_left 0 (a - f), ?_, ?_⟩
  · intro hn
    cases hf : jsFalsy sid <;> simp [Mkt.queuePayoutIfPossible, hf, hn]
  · intro hf
    simp [Mkt.queuePayoutIfPossible, hf]

/-- C4 witness: captured 1000 with fee 1100 nets to zero and queues nothing;
an absent seller id queues nothing either. -/
theorem C4_net_payout_witness :
    Mkt.netCents 1000 1100 = max 0 (1000 - 1100) ∧
    Mkt.queuePayoutIfPossible Mkt.dbGuard "L1" (some "U3") 0 = Mkt.dbGuard ∧
    Mkt.queuePayoutIfPossible Mkt.dbGuard "L1" none 900 = Mkt.dbGuard := by
  refine ⟨(C4_net_payout 1000 1100 Mkt.dbGuard "L1" (some "U3") 0).1, ?_, ?_⟩
  · exact (C4_net_payout 1000 1100 Mkt.dbGuard "L1" (some "U3") 0).2.2.1 (by decide)
  · exact (C4_net_payout 1000 1100 Mkt.dbGuard "L1" none 900).2.2.2 (by decide)

/-- C9: a charge-refund reversal passes no listing id and no buyer id, so it
marks matching transactions failed but leaves every listing (and every other
table) untouched, whatever metadata the charge carries; a charge without a
payment-intent reference resolves to the empty string. -/
theorem C9_refund_never_resets_listing (ch : Mkt.Charge) (db : Mkt.Db) :
    (Mkt.handleChargeRefunded ch db).mkt_listings = db.mkt_listings ∧
    (Mkt.handleChargeRefunded ch db).user_assets = db.user_assets ∧
    (Mkt.handleChargeRefunded ch db).mkt_profiles = db.mkt_profiles ∧
    (Mkt.handleChargeRefunded ch db).mkt_payouts = db.mkt_payouts ∧
    (Mkt.handleChargeRefunded ch db).mkt_transactions =
      db.mkt_transactions.map (fun t =>
        if t.stripe_payment_id = some (Mkt.chargePiId ch.payment_intent) then
          { t with status := "failed" }
        else t) ∧
    Mkt.chargePiId PIRef.null = "" := by
  refine ⟨?_, ?_, ?_, ?_, ?_, rfl⟩ <;>
    simp [Mkt.handleChargeRefunded, Mkt.markTxFailed, jsFalsy]

/-- C2: a reversal carrying listing id `lid` and buyer id `B` resets exactly
the listing rows whose id is `lid` and whose current buyer is still `B`; every
other listing row (in particular one reassigned to another buyer) is returned
unchanged at its position, while transactions matching the payment id are
marked failed regardless. -/
theorem C2_reversal_buyer_guard (db : Mkt.Db) (stripeId lid B : String)
    (hlid : lid ≠ "") :
    (∀ i (h1 : i < db.mkt_listings.length)
      (h2 : i < (Mkt.markTxFailed db stripeId (some lid) (some B)).mkt_listings.length),
      (Mkt.markTxFailed db stripeId (some lid) (some B)).mkt_listings.get ⟨i, h2⟩ =
        (if (db.mkt_listings.get ⟨i, h1⟩).id = lid ∧
            (db.mkt_listings.get ⟨i, h1⟩).buyer_id = some B then
          { db.mkt_listings.get ⟨i, h1⟩ with
            buyer_id := none, status := "active", is_active := true }
        else db.mkt_listings.get ⟨i, h1⟩)) ∧
    (∀ j (h3 : j < db.mkt_transactions.length)
      (h4 : j < (Mkt.markTxFailed db stripeId (some lid) (some B)).mkt_transactions.length),
      (Mkt.markTxFailed db stripeId (some lid) (some B)).mkt_transactions.get ⟨j, h4⟩ =
        (if (db.mkt_transactions.get ⟨j, h3⟩).stripe_payment_id = some stripeId then
          { db.mkt_transactions.get ⟨j, h3⟩ with status := "failed" }
        else db.mkt_transactions.get ⟨j, h3⟩)) := by
  constructor
  · intro i h1 h2
    simp [Mkt.markTxFailed, jsFalsy, hlid, List.get_eq_getElem, List.getElem_map]
  · intro j h3 h4
    simp [Mkt.markTxFailed, jsFalsy, hlid, List.get_eq_getElem, List.getElem_map]

/-- C2 witness: in a store where listing L1 is held by buyer C, a reversal for
buyer B leaves L1 untouched and still marks B's transaction failed. -/
theorem C2_reversal_buyer_guard_witness :
    (Mkt.markTxFailed Mkt.dbGuard "pi_1" (some "L1") (some "B")).mkt_listings.get
      ⟨0, by decide⟩ = Mkt.listingOfC ∧
    (Mkt.markTxFailed Mkt.dbGuard "pi_1" (some "L1") (some "B")).mkt_transactions.get
      ⟨0, by decide⟩ = { Mkt.txnOfB with status := "failed" } := by
  constructor
  · have h := (C2_reversal_buyer_guard Mkt.dbGuard "pi_1" "L1" "B" (by decide)).1
      0 (by decide) (by decide)
    exact h.trans (by decide)
  · have h := (C2_reversal_buyer_guard Mkt.dbGuard "pi_1" "L1" "B" (by decide)).2
      0 (by decide) (by decide)
    exact h.trans (by decide)

/-- Balance phase over a store with no profile row for the user: the read
fails with PGRST116, the balance is treated as 0, and a fresh row holding
exactly the granted credits is appended. -/
theorem balanceStep_missing_row (X : Credits.Db) (u : String) (c : Int)
    (hnorow : ∀ p ∈ X.mkt_profiles, p.id ≠ u) :
    (Credits.balanceStep X u c (X.readCredits u)).mkt_profiles =
      X.mkt_profiles ++ [{ id := u, credits := c }] := by
  have hfind : X.mkt_profiles.find? (fun p => decide (p.id = u)) = none := by
    rw [List.find?_eq_none]
    intro p hp
    simpa using hnorow p hp
  have hany : X.mkt_profiles.any (fun p => decide (p.id = u)) = false := by
    rw [Bool.eq_false_iff]
    intro h
    obtain ⟨p, hp, hpu⟩ := List.any_eq_true.mp h
    exact hnorow p hp (by simpa using hpu)
  simp [Credits.Db.readCredits, hfind, Credits.balanceStep, Credits.Db.upsertCredits, hany]

/-- C10: a valid credits purchase for a user with no profile row appends a
fresh profile row holding exactly the granted credit count (the PGRST116 read
error is treated as a balance of 0), while any other balance-read error aborts
the balance phase with no write. -/
theorem C10_missing_profile_grant (s : Credits.Session) (db : Credits.Db)
    (u : String) (c : Int)
    (hkind : s.md_kind = some "credits_purchase")
    (huser : s.md_userId = some u) (hu : u ≠ "")
    (hc : parseIntJS (s.md_credits.getD "0") = some c) (hcpos : 0 < c)
    (hpi : Credits.creditsPiId s.payment_intent s.id ≠ "")
    (hnorow : ∀ p ∈ db.mkt_profiles, p.id ≠ u) :
    (Credits.grantCredits s db).mkt_profiles =
      db.mkt_profiles ++ [{ id := u, credits := c }] ∧
    (∀ code : String, code ≠ "PGRST116" →
      Credits.balanceStep db u c (Except.error code) = db) := by
  constructor
  · have hbad : Credits.creditsBad (some c) = false := by
      simp [Credits.creditsBad]
      omega
    have hfalsy : jsFalsy (some u) = false := by simp [jsFalsy, hu]
    by_cases hdup : (db.credits_ledger.any (fun r =>
        decide (r.payment_intent = Credits.creditsPiId s.payment_intent s.id))) = true
    · have : Credits.grantCredits s db =
          Credits.balanceStep db u c (db.readCredits u) := by
        simp [Credits.grantCredits, Credits.afterLedgerInsert, hkind, huser, hc,
          hfalsy, hbad, hpi, Credits.Db.insertLedger, hdup]
      rw [this]
      exact balanceStep_missing_row db u c hnorow
    · have : Credits.grantCredits s db =
          Credits.balanceStep
            { db with credits_ledger := db.credits_ledger ++
                [{ user_id := u,
                   payment_intent := Credits.creditsPiId s.payment_intent s.id,
                   amount_cents := s.amount_total.getD 0, credits := c,
                   reason := "purchase" }] } u c
            (Credits.Db.readCredits
              { db with credits_ledger := db.credits_ledger ++
                  [{ user_id := u,
                     payment_intent := Credits.creditsPiId s.payment_intent s.id,
                     amount_cents := s.amount_total.getD 0, credits := c,
                     reason := "purchase" }] } u) := by
        simp [Credits.grantCredits, Credits.afterLedgerInsert, hkind, huser, hc,
          hfalsy, hbad, hpi, Credits.Db.insertLedger, hdup]
      rw [this]
      exact balanceStep_missing_row _ u c hnorow
  · intro code hcode
    simp [Credits.balanceStep, hcode]

/-- C10 witness: granting 50 credits to user u1 over an empty store creates a
profile row with exactly 50 credits. -/
theorem C10_missing_profile_grant_witness :
    (Credits.grantCredits Credits.sessionOne Credits.dbEmpty).mkt_profiles =
      Credits.dbEmpty.mkt_profiles ++ [{ id := "u1", credits := 50 }] :=
  (C10_missing_profile_grant Credits.sessionOne Credits.dbEmpty "u1" 50 rfl rfl
    (by decide) (by decide) (by decide) (by decide)
    (by intro p hp; simp [Credits.dbEmpty] at hp)).1

/-- C5: for both receivers, verification tries the primary secret when
configured and the connected-account secret when the primary is absent or
fails; with neither secret configured the response is 500 with the store
untouched, and when every configured secret fails the response is 400 with the
store untouched (no handler runs). -/
theorem C5_two_secret_verification
    (verifyM : String → Option Mkt.Event) (verifyC : String → Option Credits.Event)
    (primary connect : Option String) (fetch : String → Mkt.PaymentIntent)
    (dbM : Mkt.Db) (dbC : Credits.Db) :
    (jsFalsy primary = true → jsFalsy connect = true →
      Mkt.POST verifyM primary connect fetch dbM =
        (Response.errText 500 "webhook secret missing", dbM) ∧
      Credits.POST verifyC primary connect dbC =
        (Response.errText 500 "no secret", dbC)) ∧
    ((jsFalsy primary = false → verifyM (primary.getD "") = none) →
      (jsFalsy connect = false → verifyM (connect.getD "") = none) →
      (jsFalsy primary = false ∨ jsFalsy connect = false) →
      Mkt.POST verifyM primary connect fetch dbM =
        (Response.errText 400 "bad sig", dbM)) ∧
    ((jsFalsy primary = false → verifyC (primary.getD "") = none) →
      (jsFalsy connect = false → verifyC (connect.getD "") = none) →
      (jsFalsy primary = false ∨ jsFalsy connect = false) →
      Credits.POST verifyC primary connect dbC =
        (Response.errText 400 "bad sig", dbC)) ∧
    (∀ ev : Mkt.Event, jsFalsy primary = false →
      verifyM (primary.getD "") = some ev →
      Mkt.POST verifyM primary connect fetch dbM =
        (Response.ack, Mkt.dispatch fetch ev dbM)) ∧
    (∀ ev : Mkt.Event, (jsFalsy primary = true ∨ verifyM (primary.getD "") = none) →
      jsFalsy connect = false → verifyM (connect.getD "") = some ev →
      Mkt.POST verifyM primary connect fetch dbM =
        (Response.ack, Mkt.dispatch fetch ev dbM)) ∧
    (∀ ev : Credits.Event, jsFalsy primary = false →
      verifyC (primary.getD "") = some ev →
      Credits.POST verifyC primary connect dbC =
        (Response.ack, Credits.dispatchEvent ev dbC)) ∧
    (∀ ev : Credits.Event, (jsFalsy primary = true ∨ verifyC (primary.getD "") = none) →
      jsFalsy connect = false → verifyC (connect.getD "") = some ev →
      Credits.POST verifyC primary connect dbC =
        (Response.ack, Credits.dispatchEvent ev dbC)) := by
  refine ⟨?_, ?_, ?_, ?_, ?_, ?_, ?_⟩
  · intro hp hc
    constructor
    · unfold Mkt.POST
      rw [verifyWithSecrets_no_secret _ _ _ _ hp hc]
    · unfold Credits.POST
      rw [verifyWithSecrets_no_secret _ _ _ _ hp hc]
  · intro h1 h2 h3
    unfold Mkt.POST
    rw [verifyWithSecrets_all_fail _ _ _ _ h1 h2 h3]
  · intro h1 h2 h3
    unfold Credits.POST
    rw [verifyWithSecrets_all_fail _ _ _ _ h1 h2 h3]
  · intro ev hp hok
    unfold Mkt.POST
    rw [verifyWithSecrets_primary_ok _ _ _ _ _ hp hok]
  · intro ev hp hc hok
    unfold Mkt.POST
    rw [verifyWithSecrets_secondary_ok _ _ _ _ _ hp hc hok]
  · intro ev hp hok
    unfold Credits.POST
    rw [verifyWithSecrets_primary_ok _ _ _ _ _ hp hok]
  · intro ev hp hc hok
    unfold Credits.POST
    rw [verifyWithSecrets_secondary_ok _ _ _ _ _ hp hc hok]

/-- C5 witness: with neither secret configured, both receivers answer 500 and
leave their stores untouched. -/
theorem C5_two_secret_verification_witness :
    Mkt.POST (fun _ => none) none none Mkt.fetchProcessing Mkt.dbNone =
      (Response.errText 500 "webhook secret missing", Mkt.dbNone) ∧
    Credits.POST (fun _ => none) none none Credits.dbEmpty =
      (Response.errText 500 "no secret", Credits.dbEmpty) :=
  (C5_two_secret_verification (fun _ => none) (fun _ => none) none none
    Mkt.fetchProcessing Mkt.dbNone Credits.dbEmpty).1 rfl rfl

/-- C6: a verified event whose type is outside the receiver's dispatch table
mutates nothing and the endpoint still acknowledges with the JSON success
body, on both receivers. -/
theorem C6_unknown_event_acknowledged
    (fetch : String → Mkt.PaymentIntent) (evM : Mkt.Event) (evC : Credits.Event)
    (dbM : Mkt.Db) (dbC : Credits.Db)
    (hM1 : evM.type ≠ "payment_intent.succeeded")
    (hM2 : evM.type ≠ "payment_intent.payment_failed")
    (hM3 : evM.type ≠ "payment_intent.canceled")
    (hM4 : evM.type ≠ "checkout.session.async_payment_failed")
    (hM5 : evM.type ≠ "charge.refunded")
    (hM6 : evM.type ≠ "account.updated")
    (hM7 : evM.type ≠ "capability.updated")
    (hM8 : evM.type ≠ "account.application.authorized")
    (hC : evC.type ≠ "checkout.session.completed") :
    Mkt.dispatch fetch evM dbM = dbM ∧
    Credits.dispatchEvent evC dbC = dbC ∧
    (∀ (verifyM : String → Option Mkt.Event) (primary connect : Option String),
      verifyWithSecrets "webhook secret missing" verifyM primary connect =
        Except.ok evM →
      Mkt.POST verifyM primary connect fetch dbM = (Response.ack, dbM)) ∧
    (∀ (verifyC : String → Option Credits.Event) (primary connect : Option String),
      verifyWithSecrets "no secret" verifyC primary connect = Except.ok evC →
      Credits.POST verifyC primary connect dbC = (Response.ack, dbC)) := by
  have hdM : Mkt.dispatch fetch evM dbM = dbM := by
    simp [Mkt.dispatch, hM1, hM2, hM3, hM4, hM5, hM6, hM7, hM8]
  have hdC : Credits.dispatchEvent evC dbC = dbC := by
    simp [Credits.dispatchEvent, hC]
  refine ⟨hdM, hdC, ?_, ?_⟩
  · intro v p c hok
    unfold Mkt.POST
    rw [hok]
    simp [hdM]
  · intro v p c hok
    unfold Credits.POST
    rw [hok]
    simp [hdC]

/-- C6 witness: an `invoice.paid` event leaves both stores untouched. -/
theorem C6_unknown_event_acknowledged_witness :
    Mkt.dispatch Mkt.fetchProcessing Mkt.evUnknown Mkt.dbNone = Mkt.dbNone ∧
    Credits.dispatchEvent evUnknownC Credits.dbEmpty = Credits.dbEmpty := by
  have h := C6_unknown_event_acknowledged Mkt.fetchProcessing Mkt.evUnknown evUnknownC
    Mkt.dbNone Credits.dbEmpty (by decide) (by decide) (by decide) (by decide)
    (by decide) (by decide) (by decide) (by decide) (by decide)
  exact ⟨h.1, h.2.1⟩

/-- C7: completing a transaction first updates the rows matched by the payment
id; exactly when no row matched, it instead updates the rows matched by
(listing id, buyer id, status pending), marking them completed and backfilling
the payment id. -/
theorem C7_tx_complete_fallback (db : Mkt.Db) (stripeId lid bid : String) :
    ((∃ t ∈ db.mkt_transactions, t.stripe_payment_id = some stripeId) →
      ∀ i (h1 : i < db.mkt_transactions.length)
        (h2 : i < (Mkt.completeTx db stripeId lid bid).mkt_transactions.length),
        (Mkt.completeTx db stripeId lid bid).mkt_transactions.get ⟨i, h2⟩ =
          (if (db.mkt_transactions.get ⟨i, h1⟩).stripe_payment_id = some stripeId then
            { db.mkt_transactions.get ⟨i, h1⟩ with status := "completed" }
          else db.mkt_transactions.get ⟨i, h1⟩)) ∧
    ((∀ t ∈ db.mkt_transactions, t.stripe_payment_id ≠ some stripeId) →
      ∀ i (h1 : i < db.mkt_transactions.length)
        (h2 : i < (Mkt.completeTx db stripeId lid bid).mkt_transactions.length),
        (Mkt.completeTx db stripeId lid bid).mkt_transactions.get ⟨i, h2⟩ =
          (if (db.mkt_transactions.get ⟨i, h1⟩).listing_id = lid ∧
              (db.mkt_transactions.get ⟨i, h1⟩).buyer_id = bid ∧
              (db.mkt_transactions.get ⟨i, h1⟩).status = "pending" then
            { db.mkt_transactions.get ⟨i, h1⟩ with
              status := "completed", stripe_payment_id := some stripeId }
          else db.mkt_transactions.get ⟨i, h1⟩)) := by
  constructor
  · rintro ⟨t, ht, hts⟩ i h1 h2
    have hne : (db.mkt_transactions.filter (fun t =>
        decide (t.stripe_payment_id = some stripeId))).length ≠ 0 := by
      intro h0
      rw [List.length_eq_zero] at h0
      have := List.filter_eq_nil_iff.mp h0 t ht
      simp [hts] at this
    simp [Mkt.completeTx, hne, List.get_eq_getElem, List.getElem_map]
  · intro hno i h1 h2
    have h0 : (db.mkt_transactions.filter (fun t =>
        decide (t.stripe_payment_id = some stripeId))).length = 0 := by
      rw [List.length_eq_zero, List.filter_eq_nil_iff]
      intro t ht
      simpa using hno t ht
    have hni : (db.mkt_transactions.get ⟨i, h1⟩).stripe_payment_id ≠ some stripeId :=
      hno _ (db.mkt_transactions.get_mem i h1)
    rw [List.get_eq_getElem] at hni
    simp [Mkt.completeTx, h0, List.get_eq_getElem, List.getElem_map, hni]

/-- C7 witness: a pending transaction created before any payment id was known
is completed by the fallback match and receives the payment id. -/
theorem C7_tx_complete_fallback_witness :
    (Mkt.completeTx Mkt.dbPending "pi_1" "L1" "B").mkt_transactions.get ⟨0, by decide⟩ =
      { stripe_payment_id := some "pi_1", listing_id := "L1",
        buyer_id := "B", status := "completed" } := by
  have h := (C7_tx_complete_fallback Mkt.dbPending "pi_1" "L1" "B").2
    (by decide) 0 (by decide) (by decide)
  exact h.trans (by decide)

/-- Any row surviving the account-id-matched flag update is an original row
or carries both flags equal to the written value. -/
theorem sellerUpdateByAccount_mem (acct : Mkt.Account) (v : Bool) (db : Mkt.Db)
    (p : Mkt.Profile) (hp : p ∈ (Mkt.sellerUpdateByAccount acct v db).mkt_profiles) :
    p ∈ db.mkt_profiles ∨ (p.stripe_verified = v ∧ p.is_seller = v) := by
  rcases List.mem_map.mp hp with ⟨q, hq, rfl⟩
  by_cases hacc : q.stripe_account_id = some acct.id
  · right
    simp [hacc]
  · left
    simpa [hacc] using hq

/-- Any row surviving the metadata-keyed upsert is an original row or carries
both flags equal to the written value. -/
theorem sellerUpsert_mem (acct : Mkt.Account) (v : Bool) (db : Mkt.Db)
    (p : Mkt.Profile) (hp : p ∈ (Mkt.sellerUpsert acct v db).mkt_profiles) :
    p ∈ db.mkt_profiles ∨ (p.stripe_verified = v ∧ p.is_seller = v) := by
  rcases hmd : acct.md_user_id with _ | uid <;>
    simp only [Mkt.sellerUpsert, hmd] at hp
  · exact Or.inl hp
  · by_cases huid : uid = ""
    · rw [if_pos huid] at hp
      exact Or.inl hp
    · rw [if_neg huid] at hp
      by_cases hex : (db.mkt_profiles.any fun q => decide (q.id = uid)) = true
      · rw [if_pos hex] at hp
        rcases List.mem_map.mp hp with ⟨q, hq, rfl⟩
        by_cases hqid : q.id = uid
        · right
          simp [hqid]
        · left
          simpa [hqid] using hq
      · rw [if_neg hex] at hp
        rcases List.mem_append.mp hp with hq | hq
        · exact Or.inl hq
        · right
          rcases List.mem_singleton.mp hq with rfl
          exact ⟨rfl, rfl⟩

/-- C8: the readiness flag is exactly the conjunction of charges enabled,
payouts enabled and an empty currently-due list, and every profile row changed
or created by `markSellerReadiness` carries both `stripe_verified` and
`is_seller` equal to that computed value; all other rows are rows of the
original store. -/
theorem C8_seller_readiness (acct : Mkt.Account) (db : Mkt.Db) :
    (Mkt.accountVerified acct = true ↔
      (acct.charges_enabled = true ∧ acct.payouts_enabled = true ∧
        acct.currently_due.getD [] = [])) ∧
    (∀ p ∈ (Mkt.markSellerReadiness acct db).mkt_profiles,
      p ∈ db.mkt_profiles ∨
        (p.stripe_verified = Mkt.accountVerified acct ∧
         p.is_seller = Mkt.accountVerified acct)) := by
  constructor
  · simp [Mkt.accountVerified, Bool.and_eq_true, List.isEmpty_iff, and_assoc]
  · intro p hp
    rcases sellerUpdateByAccount_mem acct (Mkt.accountVerified acct)
        (Mkt.sellerUpsert acct (Mkt.accountVerified acct) db) p hp with h | h
    · rcases sellerUpsert_mem acct (Mkt.accountVerified acct) db p h with h2 | h2
      · exact Or.inl h2
      · exact Or.inr h2
    · exact Or.inr h

/-- C8 witness: a fully enabled account tagged with user u7 over an empty
store yields exactly the freshly created row, whose flags both equal the
computed readiness value. -/
theorem C8_seller_readiness_witness :
    Mkt.profU7 ∈ Mkt.dbNone.mkt_profiles ∨
      (Mkt.profU7.stripe_verified = Mkt.accountVerified Mkt.acctSample ∧
       Mkt.profU7.is_seller = Mkt.accountVerified Mkt.acctSample) :=
  (C8_seller_readiness Mkt.acctSample Mkt.dbNone).2 Mkt.profU7 (by decide)
